import Mathlib

/-!
Verification of the vaultwarden non-diesel key-value storage layer

Shallow embedding of the transactional key-value table/index layer found in
`src/db/nondiesel/fdb.rs` (FoundationDB-backed macro-generated tables and the
index maintenance helpers) and `src/new_db/custom_backends/{rdb,fdb}.rs`
(the RocksDB retry executor, the `RdbKeyspace` prefix scheme and connection
establishment).

Byte strings are modelled as `List Nat`; a transaction's view of the database
is an association list from keys to values.  A FoundationDB/RocksDB
transaction reads its own writes and publishes nothing until `commit`, so a
transaction body is modelled as a function from the committed store to either
an error (nothing committed) or the new store (the committed result).
-/

set_option maxRecDepth 4000

/-- Decidable equality for `Except`, so that concrete operation outcomes can
be settled by `decide`. -/
instance {ε α : Type} [DecidableEq ε] [DecidableEq α] : DecidableEq (Except ε α) := fun a b =>
  match a, b with
  | .ok x, .ok y =>
      if h : x = y then .isTrue (by rw [h]) else .isFalse (by simp [h])
  | .ok _, .error _ => .isFalse (by simp)
  | .error _, .ok _ => .isFalse (by simp)
  | .error x, .error y =>
      if h : x = y then .isTrue (by rw [h]) else .isFalse (by simp [h])

namespace VwKv

/-- Raw byte strings (keys, values, serialized tuples). -/
abbrev Bytes := List Nat

/-- The key-value state visible to a transaction: an association list, first
match wins.  It doubles as the committed database content. -/
abbrev Store := List (Bytes × Bytes)

/-- Point read (`trx.get`). -/
def Store.get : Store → Bytes → Option Bytes
  | [], _ => none
  | (k, v) :: rest, key => if k = key then some v else Store.get rest key

/-- Remove a key (`trx.clear`). -/
def Store.clear (s : Store) (key : Bytes) : Store :=
  s.filter (fun kv => decide (kv.1 ≠ key))

/-- Upsert (`trx.set`). -/
def Store.set (s : Store) (key val : Bytes) : Store :=
  (key, val) :: s.clear key

/-- Whether `k` starts with the byte string `p`. -/
def bstarts : Bytes → Bytes → Bool
  | [], _ => true
  | _ :: _, [] => false
  | a :: ps, b :: ks => a == b && bstarts ps ks

/-- Remove every key under a byte prefix (`trx.clear_subspace_range`). -/
def Store.clearSubspaceRange (s : Store) (p : Bytes) : Store :=
  s.filter (fun kv => !(bstarts p kv.1))

/-! FoundationDB tuple-layer encoding

`foundationdb::tuple::Subspace` is represented by its raw prefix bytes.
The macro packs byte strings (code `0x01`, NUL-escaped, NUL-terminated),
unicode strings (code `0x02`) and small non-negative integers
(codes `0x14`–`0x16`) — the only element kinds the embedded code uses. -/

/-- NUL-escaping used by the tuple layer inside string/bytes elements. -/
def tupleEscape : Bytes → Bytes
  | [] => []
  | b :: t => if b = 0 then 0 :: 255 :: tupleEscape t else b :: tupleEscape t

/-- Tuple encoding of a byte-string element (`&[u8]` as `TuplePack`). -/
def tupleEncBytes (bs : Bytes) : Bytes := 1 :: (tupleEscape bs ++ [0])

/-- Tuple encoding of a unicode-string element (table keys are `String`s). -/
def tupleEncStr (s : Bytes) : Bytes := 2 :: (tupleEscape s ++ [0])

/-- Tuple encoding of a small non-negative integer element (`u16` column tags). -/
def tupleEncInt (n : Nat) : Bytes :=
  if n = 0 then [20]
  else if n ≤ 255 then [21, n]
  else [22, n / 256, n % 256]

/-- Model of `Subspace::pack` of one byte-string element. -/
def subPackBytes (sub : Bytes) (bs : Bytes) : Bytes := sub ++ tupleEncBytes bs

/-- Model of `Subspace::pack`/`Subspace::subspace` of one integer element. -/
def subPackInt (sub : Bytes) (n : Nat) : Bytes := sub ++ tupleEncInt n

/-! Error type

`NonDieselDbError` is referenced throughout `src/db/nondiesel/fdb.rs`; the
enum declaration itself is not among the provided sources, so the variant set
is taken from its use sites in that file. -/

inductive NonDieselDbError where
  | IndexMismatchError
  | IndexAlreadyExists
  | TrxFail
  | TrxCommitFail
  | OpProhibited
deriving DecidableEq, Repr

/-! Index maintenance helpers (`trx_helpers` in `src/db/nondiesel/fdb.rs`)

Each helper receives the transaction view and returns either an error (the
enclosing `set`/`delete` then propagates it with `?`, so `commit` is never
reached) or the updated view. -/

/-- Fall-through tail of `set_unique_index`: check the new value's index key
and write `new_index_key → ser_key_tuple` when it is vacant. -/
def set_unique_index_check_new (view : Store) (index_subspace new_index ser_key_tuple : Bytes) :
    Except NonDieselDbError Store :=
  let new_index_key := subPackBytes index_subspace new_index
  match view.get new_index_key with
  | some _ => .error .IndexAlreadyExists
  | none => .ok (view.set new_index_key ser_key_tuple)

/-- Embedding of `trx_helpers::set_unique_index` (fdb.rs lines 75–107). -/
def set_unique_index (view : Store) (index_subspace new_index table_key ser_key_tuple : Bytes) :
    Except NonDieselDbError Store :=
  match view.get table_key with
  | some old_index =>
      let old_index_key := subPackBytes index_subspace old_index
      match view.get old_index_key with
      | some old_index_pk =>
          if old_index_pk ≠ ser_key_tuple then
            .error .IndexMismatchError
          else if old_index = new_index then
            .ok view
          else
            set_unique_index_check_new (view.clear old_index_key) index_subspace new_index ser_key_tuple
      | none =>
          -- "Indexed column already exists but not the index entry itself" — ignored
          set_unique_index_check_new view index_subspace new_index ser_key_tuple
  | none => set_unique_index_check_new view index_subspace new_index ser_key_tuple

/-- Fall-through tail of `set_multi_index` (byte-identical to the unique one
in the source). -/
def set_multi_index_check_new (view : Store) (index_subspace new_index ser_key_tuple : Bytes) :
    Except NonDieselDbError Store :=
  let new_index_key := subPackBytes index_subspace new_index
  match view.get new_index_key with
  | some _ => .error .IndexAlreadyExists
  | none => .ok (view.set new_index_key ser_key_tuple)

/-- Embedding of `trx_helpers::set_multi_index` (fdb.rs lines 109–141): the body is a
verbatim duplicate of `set_unique_index` — the written key is
`index_subspace.pack(new_index)` and does not involve the primary key. -/
def set_multi_index (view : Store) (index_subspace new_index table_key ser_key_tuple : Bytes) :
    Except NonDieselDbError Store :=
  match view.get table_key with
  | some old_index =>
      let old_index_key := subPackBytes index_subspace old_index
      match view.get old_index_key with
      | some old_index_pk =>
          if old_index_pk ≠ ser_key_tuple then
            .error .IndexMismatchError
          else if old_index = new_index then
            .ok view
          else
            set_multi_index_check_new (view.clear old_index_key) index_subspace new_index ser_key_tuple
      | none =>
          set_multi_index_check_new view index_subspace new_index ser_key_tuple
  | none => set_multi_index_check_new view index_subspace new_index ser_key_tuple

/-- Embedding of `trx_helpers::delete_unique_index` (fdb.rs lines 143–153). -/
def delete_unique_index (view : Store) (index_subspace index ser_key_tuple : Bytes) :
    Except NonDieselDbError Store :=
  let key := subPackBytes index_subspace index
  match view.get key with
  | none => .error .TrxFail
  | some val =>
      if val ≠ ser_key_tuple then .error .IndexMismatchError
      else .ok (view.clear key)

/-- Embedding of `trx_helpers::delete_multi_index` (fdb.rs lines 155–162): the looked-up
key is `index_col_subspace.pack(ser_key_tuple)` — the bare primary-key tuple,
with no index value in the key. -/
def delete_multi_index (view : Store) (index_col_subspace ser_key_tuple : Bytes) :
    Except NonDieselDbError Store :=
  let key := subPackBytes index_col_subspace ser_key_tuple
  match view.get key with
  | none => .error .TrxFail
  | some _ => .ok (view.clear key)

/-! Macro-generated table operations (`fdb_table!` in `src/db/nondiesel/fdb.rs`)

The macro generates, per declared table, a module with constants
`TABLE_SUBSPACE`, `U_INDEX_SUBSPACE`, `M_INDEX_SUBSPACE`, `PK_COLS` and the
per-row operations.  The embedding is data-driven: one generic definition per
generated operation, over a table descriptor. -/

/-- The per-table constants the macro bakes in. -/
structure TableDesc where
  tableSub : Bytes
  uIdxSub : Bytes
  mIdxSub : Bytes
  pkCols : List Nat
deriving DecidableEq

/-- Model of `u_index_col_subspace`: `Subspace::from_bytes(U_INDEX_SUBSPACE).subspace(&(col as u16))`. -/
def u_index_col_subspace (d : TableDesc) (col : Nat) : Bytes :=
  subPackInt d.uIdxSub col

/-- Model of `m_index_col_subspace`: `Subspace::from_bytes(M_INDEX_SUBSPACE).subspace(&(col as u16))`. -/
def m_index_col_subspace (d : TableDesc) (col : Nat) : Bytes :=
  subPackInt d.mIdxSub col

/-- Model of `key_subspace(keys...)`: the table subspace extended by each (string)
primary-key value in order. -/
def key_subspace (tableSub : Bytes) (keys : List Bytes) : Bytes :=
  keys.foldl (fun acc k => acc ++ tupleEncStr k) tableSub

/-- The row object built by the generated `new`: its derived key subspace,
the bson-serialized primary-key tuple (opaque bytes here), and each column's
serialized value, listed in declaration order as `(column_tag, bytes)`. -/
structure RowData where
  subspace : Bytes
  serKeyTuple : Bytes
  attrs : List (Nat × Bytes)
deriving DecidableEq

/-- Value the row holds for column tag `c` (the macro reads `self.$attr`). -/
def RowData.attr (r : RowData) (c : Nat) : Bytes :=
  (r.attrs.lookup c).getD []

/-- Generated `set` (fdb.rs lines 301–330): update every unique index, then
every multi index, then write all column cells, then commit.  An index error
propagates with `?` before `trx.commit()` is reached. -/
def tableSet (d : TableDesc) (uniqueIdxCols multiIdxCols : List Nat) (row : RowData)
    (commitOk : Bool) (view : Store) : Except NonDieselDbError Store := do
  let view ← uniqueIdxCols.foldlM (fun v c =>
      set_unique_index v (u_index_col_subspace d c) (row.attr c)
        (subPackInt row.subspace c) row.serKeyTuple) view
  let view ← multiIdxCols.foldlM (fun v c =>
      set_multi_index v (m_index_col_subspace d c) (row.attr c)
        (subPackInt row.subspace c) row.serKeyTuple) view
  let view := row.attrs.foldl (fun v cv => v.set (subPackInt row.subspace cv.1) cv.2) view
  if commitOk then pure view else .error .TrxCommitFail

/-- Generated `delete` (fdb.rs lines 332–356): clear the row's whole key
subspace, then delete multi-index entries, then commit.  The unique-index
removal in the source is commented out — only the unique index column
subspace is bound, nothing of it is cleared — so `uniqueIdxCols` is unused. -/
def tableDelete (d : TableDesc) (_uniqueIdxCols multiIdxCols : List Nat) (row : RowData)
    (commitOk : Bool) (view : Store) : Except NonDieselDbError Store := do
  let view := view.clearSubspaceRange row.subspace
  let view ← multiIdxCols.foldlM (fun v c =>
      delete_multi_index v (m_index_col_subspace d c) row.serKeyTuple) view
  if commitOk then pure view else .error .TrxCommitFail

/-- Generated `get` (fdb.rs lines 282–298): read every column cell under the
derived key subspace, `.unwrap()`-ing each one.  The outer `Option` models the
panic: `none` is the `unwrap` of a missing cell (the source's own TODO notes
it should instead return `Ok(None)`).  On success the code always produces
`Ok(Some(row))`. -/
def tableGet (cols : List Nat) (keySub : Bytes) (view : Store) :
    Option (Except NonDieselDbError (Option (List (Nat × Bytes)))) :=
  match cols.mapM (fun c => (view.get (subPackInt keySub c)).map (fun v => (c, v))) with
  | none => none
  | some attrs => some (.ok (some attrs))

/-- Generated per-row `set_<attr>` (fdb.rs lines 406–419): refuse primary-key
columns with `OpProhibited` before touching the transaction; otherwise write
the cell and commit, where the outer `none` models the `unwrap` panic on a
failed commit. -/
def set_attr (pkCols : List Nat) (rowSubspace : Bytes) (col : Nat) (ser : Bytes)
    (commitOk : Bool) (view : Store) : Option (Except NonDieselDbError Store) :=
  if col ∈ pkCols then
    some (.error .OpProhibited)
  else
    let key := subPackInt rowSubspace col
    let view := view.set key ser
    if commitOk then some (.ok view) else none

/-- Generated `column::<attr>::set` (fdb.rs lines 438–449): same primary-key
guard, addressing the cell through `key_subspace(keys...)`. -/
def column_set (pkCols : List Nat) (tableSub : Bytes) (keys : List Bytes) (col : Nat)
    (ser : Bytes) (commitOk : Bool) (view : Store) : Option (Except NonDieselDbError Store) :=
  if col ∈ pkCols then
    some (.error .OpProhibited)
  else
    let key := subPackInt (key_subspace tableSub keys) col
    let view := view.set key ser
    if commitOk then some (.ok view) else none

/-- Generated `column::<attr>::get` (fdb.rs lines 429–436): point read of one
cell; an absent cell is a successful `Ok(None)` here. -/
def column_get (tableSub : Bytes) (keys : List Bytes) (col : Nat) (view : Store) :
    Option Bytes :=
  view.get (subPackInt (key_subspace tableSub keys) col)

/-- A transaction body that returns an error is never committed (the error
propagates before `trx.commit()`, and an uncommitted FoundationDB transaction
publishes none of its buffered writes): the database keeps its previous
contents.  A body that returns `ok view` commits `view`. -/
def commitResult (committed : Store) (r : Except NonDieselDbError Store) : Store :=
  match r with
  | .ok s => s
  | .error _ => committed

/-! RocksDB backend (`src/new_db/custom_backends/rdb.rs`)

The embedded optimistic store: the `RdbKeyspace` byte-prefix scheme and the
`transact` retry loop. -/

/-- Model of `rocksdb::ErrorKind` (the retry loop retries `Busy` and `TryAgain` and
treats every other kind as fatal). -/
inductive ErrorKind where
  | NotFound
  | Corruption
  | NotSupported
  | InvalidArgument
  | IoError
  | MergeInProgress
  | Incomplete
  | ShutdownInProgress
  | TimedOut
  | Aborted
  | Busy
  | Expired
  | TryAgain
  | CompactionTooLarge
  | ColumnFamilyDropped
  | Unknown
deriving DecidableEq, Repr

/-- Model of `rocksdb::Error`: its kind plus an opaque identity tag distinguishing
error instances. -/
structure RdbError where
  kind : ErrorKind
  code : Nat
deriving DecidableEq, Repr

/-- Model of `TransactionError` from `src/new_db/error.rs` (the FoundationDB payload
is opaque here). -/
inductive TransactionError where
  | SerializationError (msg : String)
  | FdbTrxFailed
  | RdbTrxFailed (e : RdbError)
deriving DecidableEq, Repr

/-- What one attempt of the retry loop would observe: the closure's result,
and the outcomes `rollback` and `commit` would report if called. -/
structure Attempt (T : Type) where
  closure : Except TransactionError T
  revert : Except RdbError Unit
  commit : Except RdbError Unit

/-- Outcome of `RdbConnection::transact`. `panicked` models reaching
`last_error.unwrap()` with `last_error == None`. -/
inductive TransactResult (T : Type) where
  | ok (t : T)
  | err (e : TransactionError)
  | panicked
deriving DecidableEq, Repr

/-- The `for i in 0..retry_attempts` loop of `RdbConnection::transact`
(rdb.rs lines 55–88), indexed by the current attempt number, the remaining
attempts, and `last_error`.  Also counts the loop iterations executed. -/
def transactLoop {T : Type} (beh : Nat → Attempt T) :
    Nat → Nat → Option RdbError → TransactResult T × Nat
  | _, 0, lastError =>
      (match lastError with
       | some e => .err (.RdbTrxFailed e)
       | none => .panicked, 0)
  | i, remaining + 1, _lastError =>
      let a := beh i
      match a.closure with
      | .error trxErr =>
          match a.revert with
          | .error rdbErr => (.err (.RdbTrxFailed rdbErr), 1)
          | .ok _ => (.err trxErr, 1)
      | .ok t =>
          match a.commit with
          | .ok _ => (.ok t, 1)
          | .error e =>
              match e.kind with
              | .Busy =>
                  let r := transactLoop beh (i + 1) remaining (some e)
                  (r.1, r.2 + 1)
              | .TryAgain =>
                  let r := transactLoop beh (i + 1) remaining (some e)
                  (r.1, r.2 + 1)
              | _ => (.err (.RdbTrxFailed e), 1)

/-- Embedding of `RdbConnection::transact` (rdb.rs lines 49–88): run the closure against a
fresh transaction up to `retry_attempts` times, retrying only `Busy`/`TryAgain`
commit failures; at exhaustion, `Err(last_error.unwrap().into())`.  Returns
the result together with the number of attempts executed. -/
def transact {T : Type} (retry_attempts : Nat) (beh : Nat → Attempt T) :
    TransactResult T × Nat :=
  transactLoop beh 0 retry_attempts none

/-! The RdbKeyspace type. -/

/-- Comment from the source: "Use Unit Separator (US) to reduce the chance of conflicting keyspace.
Might still happen though." (rdb.rs line 203). -/
def SEPARATOR : Bytes := [31]

/-- Model of `RdbKeyspace`: a value type over its raw byte buffer. -/
structure RdbKeyspace where
  bytes : Bytes
deriving DecidableEq, Repr

namespace RdbKeyspace

/-- Method `all()`: the empty prefix. -/
def all : RdbKeyspace := ⟨[]⟩

/-- Method `from_bytes(b)`: `b` followed by the separator byte. -/
def from_bytes (b : Bytes) : RdbKeyspace := ⟨b ++ SEPARATOR⟩

/-- Method `as_bytes()`. -/
def as_bytes (k : RdbKeyspace) : Bytes := k.bytes

/-- Method `keyspace(child)`: concatenate and re-append the separator. -/
def keyspace (k : RdbKeyspace) (b : Bytes) : RdbKeyspace := from_bytes (k.bytes ++ b)

/-- Method `pack(bytes)`: literal concatenation, no separator. -/
def pack (k : RdbKeyspace) (b : Bytes) : Bytes := k.bytes ++ b

/-- Method `unpack(key)`: `key.strip_prefix(bytes)` as an `Option`. -/
def unpack (k : RdbKeyspace) (key : Bytes) : Option Bytes :=
  if bstarts k.bytes key then some (key.drop k.bytes.length) else none

/-- Method `range()`: `(bytes ++ 0x00, bytes ++ 0xFF)`. -/
def range (k : RdbKeyspace) : Bytes × Bytes := (k.bytes ++ [0], k.bytes ++ [255])

end RdbKeyspace

/-- Bytewise lexicographic `≤` (RocksDB's default comparator order, used to
read `range()` bounds as an interval of keys). -/
def bytesLe : Bytes → Bytes → Bool
  | [], _ => true
  | _ :: _, [] => false
  | a :: xs, b :: ys => if a < b then true else if b < a then false else bytesLe xs ys

/-! FoundationDB connection establishment (`src/new_db/custom_backends/fdb.rs`) -/

/-- Model of `DbConnError` from `src/new_db/error.rs` (foreign payloads dropped). -/
inductive DbConnError where
  | EstablishFail (msg : String)
  | StartError (msg : String)
  | StopError (msg : String)
  | FdbError
deriving DecidableEq, Repr

/-- Model of `FdbConfig` (fdb.rs lines 30–36). -/
structure FdbConfig where
  cluster_path : String
  base_subspace : String
  max_repeat : Int
  trx_timeout_millis : Nat

/-- Embedding of `config.cluster_path.strip_prefix("fdb:").unwrap_or_else(|| &config.cluster_path)`:
drop a leading `fdb:` scheme if present. -/
def strip_scheme (s : String) : String :=
  if s.data.take 4 = ['f', 'd', 'b', ':'] then String.mk (s.data.drop 4) else s

/-- Embedding of `FdbConnection::establish` (fdb.rs lines 66–83).  `isFile` is the
environment's answer to `Path::new(p).is_file()`; `driver` stands for the
foreign calls after the guard (`Database::from_path` and the two
`set_option`s), which the source chains with `?`.  The guard in the source
reads `if Path::new(&cluster_path_str).is_file() { return Err(EstablishFail(
"cluster file not found or unreadable: ...")) }`. -/
def establish (isFile : String → Bool) (driver : String → Except DbConnError Unit)
    (config : FdbConfig) : Except DbConnError Unit :=
  let cluster_path_str := strip_scheme config.cluster_path
  if isFile cluster_path_str then
    .error (.EstablishFail ("cluster file not found or unreadable: " ++ cluster_path_str))
  else
    driver cluster_path_str

/-! Claim theorems -/

/-- C1: the multi-index entry written by `set_multi_index` is keyed by the
bare index value (`index_subspace.pack(new_index)`), not by the pair
`(index_value, primary_key_tuple)`.  Concretely, for two rows with primary
keys `[1]` and `[2]` sharing the indexed value `[7]`: the first set writes
the bare-value key with no primary-key component, the second set collides on
that very key and fails with `IndexAlreadyExists`, and deleting the first
row's entry via `delete_multi_index` fails with `TrxFail` because it looks up
`pack(primary_key_tuple)`, a key `set_multi_index` never wrote. -/
theorem multi_index_keyed_by_bare_value :
    set_multi_index [] (m_index_col_subspace ⟨[116], [117], [109], [0]⟩ 3) [7]
        (subPackInt (key_subspace [116] [[1]]) 3) [1] =
      .ok [(subPackBytes (m_index_col_subspace ⟨[116], [117], [109], [0]⟩ 3) [7], [1])] ∧
    set_multi_index [(subPackBytes (m_index_col_subspace ⟨[116], [117], [109], [0]⟩ 3) [7], [1])]
        (m_index_col_subspace ⟨[116], [117], [109], [0]⟩ 3) [7]
        (subPackInt (key_subspace [116] [[2]]) 3) [2] =
      .error .IndexAlreadyExists ∧
    delete_multi_index [(subPackBytes (m_index_col_subspace ⟨[116], [117], [109], [0]⟩ 3) [7], [1])]
        (m_index_col_subspace ⟨[116], [117], [109], [0]⟩ 3) [1] =
      .error .TrxFail :=
  ⟨rfl, rfl, rfl⟩

/-- C5: the generated `delete` clears the row's primary-key subspace but does
NOT remove the row's unique-index entries (that removal is commented out in
the source).  Concretely: a row with unique-indexed value `[7]` and its index
entry are stored; `delete` succeeds, clears both column cells, yet the
unique-index entry `pack(value) → primary_key` is still present and still
points at the deleted row. -/
theorem delete_leaves_unique_index_entry :
    tableDelete ⟨[116], [117], [109], [0]⟩ [1] []
        ⟨key_subspace [116] [[1]], [1], [(0, [1]), (1, [7])]⟩ true
        [(subPackInt (key_subspace [116] [[1]]) 0, [1]),
         (subPackInt (key_subspace [116] [[1]]) 1, [7]),
         (subPackBytes (u_index_col_subspace ⟨[116], [117], [109], [0]⟩ 1) [7], [1])] =
      .ok [(subPackBytes (u_index_col_subspace ⟨[116], [117], [109], [0]⟩ 1) [7], [1])] ∧
    Store.get [(subPackBytes (u_index_col_subspace ⟨[116], [117], [109], [0]⟩ 1) [7], [1])]
        (subPackBytes (u_index_col_subspace ⟨[116], [117], [109], [0]⟩ 1) [7]) = some [1] :=
  ⟨rfl, rfl⟩

/-- C6: when every column cell under the derived primary-key keyspace is
absent, the generated `get` does not return `Ok(None)`: it `.unwrap()`s the
first missing cell and panics (modelled by the outer `none`), here evaluated
on a store holding only an unrelated key. -/
theorem get_absent_row_panics :
    tableGet [0, 1] (key_subspace [116] [[1]]) [([99], [5])] = none :=
  rfl

/-- C2 counterexample: `set_unique_index` fails with `IndexAlreadyExists`
even when the entry already stored at the new value's index key belongs to
THIS row (its payload equals this row's primary-key tuple `[1]`), although the
claim requires failure only for an entry of a *different* row (and otherwise
a successful write). -/
theorem unique_index_same_row_counterexample :
    set_unique_index [(subPackBytes [117, 21, 1] [7], [1])] [117, 21, 1] [7]
        (subPackInt (key_subspace [116] [[1]]) 1) [1] =
      .error .IndexAlreadyExists ∧
    Store.get [(subPackBytes [117, 21, 1] [7], [1])] (subPackBytes [117, 21, 1] [7]) =
      some [1] :=
  ⟨rfl, rfl⟩

/-- Behaviour of the fall-through tail of `set_unique_index`: it fails with
`IndexAlreadyExists` exactly when the new value's index key is occupied, and
otherwise writes `new value → primary key`. -/
theorem set_unique_index_check_new_spec (v : Store) (ss new pk : Bytes) :
    (set_unique_index_check_new v ss new pk = .error .IndexAlreadyExists ↔
        v.get (subPackBytes ss new) ≠ none) ∧
    (v.get (subPackBytes ss new) = none →
        set_unique_index_check_new v ss new pk = .ok (v.set (subPackBytes ss new) pk)) := by
  unfold set_unique_index_check_new
  cases h : v.get (subPackBytes ss new) <;> simp [h]

/-- C2 (amended): provided the old-value handling does not short-circuit
(no stored old value, or a matching old entry with a different old value),
`set_unique_index` fails with `IndexAlreadyExists` exactly when an entry
already exists at the new value's index key — regardless of which row owns
that entry — and otherwise writes `new value → this row's primary key`; and
whenever the enclosing generated `set` returns any error, nothing is
committed: the committed store is unchanged.  `pv` is the view after the
old-entry clear (if one happens). -/
theorem unique_index_set_existence_check
    (view : Store) (ss new tk pk : Bytes) (pv : Store)
    (hOld : ∀ old, view.get tk = some old →
        view.get (subPackBytes ss old) = none ∨
          (view.get (subPackBytes ss old) = some pk ∧ old ≠ new))
    (hpv : pv = match view.get tk with
        | some old =>
            if view.get (subPackBytes ss old) = some pk
            then view.clear (subPackBytes ss old) else view
        | none => view) :
    (set_unique_index view ss new tk pk = .error .IndexAlreadyExists ↔
        pv.get (subPackBytes ss new) ≠ none) ∧
    (pv.get (subPackBytes ss new) = none →
        set_unique_index view ss new tk pk = .ok (pv.set (subPackBytes ss new) pk)) ∧
    (∀ (d : TableDesc) (uI mI : List Nat) (row : RowData) (cOk : Bool)
        (st : Store) (er : NonDieselDbError),
        tableSet d uI mI row cOk st = .error er →
        commitResult st (tableSet d uI mI row cOk st) = st) := by
  have hred : set_unique_index view ss new tk pk = set_unique_index_check_new pv ss new pk := by
    rw [hpv]
    cases hv : view.get tk with
    | none => simp [set_unique_index, hv]
    | some old =>
        rcases hOld old hv with h1 | ⟨h2, hne⟩
        · simp [set_unique_index, hv, h1]
        · simp [set_unique_index, hv, h2, hne]
  rw [hred]
  obtain ⟨h1, h2⟩ := set_unique_index_check_new_spec pv ss new pk
  refine ⟨h1, h2, ?_⟩
  intro d uI mI row cOk st er h
  rw [h]
  rfl

/-- C2 witness: on an empty view the check passes and the index entry is
written. -/
theorem unique_index_set_existence_check_witness :
    set_unique_index [] [117, 21, 1] [7] [9] [1] =
      .ok (Store.set [] (subPackBytes [117, 21, 1] [7]) [1]) :=
  (unique_index_set_existence_check [] [117, 21, 1] [7] [9] [1] []
      (fun old h => absurd h (by simp [Store.get]))
      rfl).2.1 rfl

/-- C7: the generated per-row `set_<attr>` and the column module's `set` both
reject a primary-key column with `OpProhibited`, regardless of the
transaction view, the candidate value, and whether a commit could succeed:
the guard fires before any write or commit is attempted, so the result
carries no modified store. -/
theorem pk_column_set_prohibited (pkCols : List Nat) (col : Nat) (h : col ∈ pkCols)
    (rowSubspace ser : Bytes) (commitOk : Bool) (view : Store)
    (tableSub : Bytes) (keys : List Bytes) :
    set_attr pkCols rowSubspace col ser commitOk view = some (.error .OpProhibited) ∧
    column_set pkCols tableSub keys col ser commitOk view = some (.error .OpProhibited) := by
  constructor <;> simp [set_attr, column_set, h]

/-- C7 witness: the guard at a concrete instance — table `[116]`, primary-key
column tag `0`, candidate value `[9]`. -/
theorem pk_column_set_prohibited_witness :
    set_attr [0] (key_subspace [116] [[1]]) 0 [9] true [] = some (.error .OpProhibited) ∧
    column_set [0] [116] [[1]] 0 [9] true [] = some (.error .OpProhibited) :=
  pk_column_set_prohibited [0] 0 (by decide) (key_subspace [116] [[1]]) [9] true [] [116] [[1]]

/-- C3 counterexample: with `retry_attempts = 0` and a transaction body whose
commit would always report `Busy`, `transact` does not return the last
conflict as a fatal error after `retry_attempts` attempts: the loop body
never runs and the function reaches `last_error.unwrap()` on `None`
(a panic), performing zero attempts. -/
theorem transact_zero_attempts_counterexample :
    transact 0 (fun _ => Attempt.mk (T := Nat) (.ok 0) (.ok ()) (.error ⟨.Busy, 0⟩)) =
      (.panicked, 0) :=
  rfl

/-- If every attempt `i, i+1, ..., i+k` of the retry loop has a successful
closure and a `Busy`/`TryAgain` commit failure, the loop exhausts its `k + 1`
remaining attempts and returns the last conflict as `RdbTrxFailed`. -/
theorem transactLoop_all_conflicts {T : Type} (beh : Nat → Attempt T) (errF : Nat → RdbError) :
    ∀ (k i : Nat) (last : Option RdbError),
      (∀ j, j < k + 1 → (∃ t, (beh (i + j)).closure = .ok t) ∧
          (beh (i + j)).commit = .error (errF (i + j)) ∧
          ((errF (i + j)).kind = .Busy ∨ (errF (i + j)).kind = .TryAgain)) →
      transactLoop beh i (k + 1) last = (.err (.RdbTrxFailed (errF (i + k))), k + 1) := by
  intro k
  induction k with
  | zero =>
      intro i last h
      obtain ⟨⟨t, hcl⟩, hcom, hkind⟩ := h 0 Nat.one_pos
      rw [Nat.add_zero] at hcl hcom hkind
      rcases hkind with hk | hk <;>
        simp [transactLoop, hcl, hcom, hk]
  | succ k ih =>
      intro i last h
      obtain ⟨⟨t, hcl⟩, hcom, hkind⟩ := h 0 (Nat.succ_pos _)
      rw [Nat.add_zero] at hcl hcom hkind
      have hrec := ih (i + 1) (some (errF i)) (fun j hj => by
        have hs := h (j + 1) (by omega)
        rwa [show i + (j + 1) = i + 1 + j by omega] at hs)
      have hidx : i + 1 + k = i + (k + 1) := by omega
      rw [hidx] at hrec
      generalize k + 1 = m at hrec ⊢
      rcases hkind with hk | hk <;>
        simp only [transactLoop] <;>
        simp [hcl, hcom, hk, hrec]

/-- C3 (amended): for the embedded-store `transact` with `retry_attempts ≥ 1`,
if every attempt's closure succeeds and every attempt's commit reports a
retryable conflict (`Busy` or `TryAgain`), then `transact` terminates after
exactly `retry_attempts` attempts and returns the last conflict error,
wrapped as the fatal `RdbTrxFailed`.  (With `retry_attempts = 0` the source
instead panics on `last_error.unwrap()` — see the counterexample.) -/
theorem transact_all_conflicts_returns_last {T : Type} (n : Nat) (beh : Nat → Attempt T)
    (errF : Nat → RdbError) (hn : 1 ≤ n)
    (h : ∀ i, i < n → (∃ t, (beh i).closure = .ok t) ∧
        (beh i).commit = .error (errF i) ∧
        ((errF i).kind = .Busy ∨ (errF i).kind = .TryAgain)) :
    transact n beh = (.err (.RdbTrxFailed (errF (n - 1))), n) := by
  obtain ⟨k, rfl⟩ : ∃ k, n = k + 1 := ⟨n - 1, by omega⟩
  have hc := transactLoop_all_conflicts beh errF k 0 none (fun j hj => by
    simpa using h j (by omega))
  simpa [transact] using hc

/-- C3 witness: two attempts, both conflicting with `Busy`; the second
attempt's error (tag 1) is returned after exactly 2 attempts. -/
theorem transact_all_conflicts_returns_last_witness :
    transact 2 (fun i => Attempt.mk (T := Nat) (.ok 0) (.ok ()) (.error ⟨.Busy, i⟩)) =
      (.err (.RdbTrxFailed ⟨.Busy, 1⟩), 2) :=
  transact_all_conflicts_returns_last 2
    (fun i => Attempt.mk (T := Nat) (.ok 0) (.ok ()) (.error ⟨.Busy, i⟩))
    (fun i => ⟨.Busy, i⟩) (by omega)
    (fun i _ => ⟨⟨0, rfl⟩, rfl, Or.inl rfl⟩)

/-- If attempts `i, ..., i+k-1` conflict and attempt `i+k` has a closure that
returns an application error with a successful rollback, the loop returns
that same error after `k + 1` attempts, regardless of how many more attempts
`m` would allow. -/
theorem transactLoop_app_error {T : Type} (beh : Nat → Attempt T) (errF : Nat → RdbError)
    (e : TransactionError) :
    ∀ (k i m : Nat) (last : Option RdbError), k < m →
      (∀ j, j < k → (∃ t, (beh (i + j)).closure = .ok t) ∧
          (beh (i + j)).commit = .error (errF (i + j)) ∧
          ((errF (i + j)).kind = .Busy ∨ (errF (i + j)).kind = .TryAgain)) →
      (beh (i + k)).closure = .error e →
      (beh (i + k)).revert = .ok () →
      transactLoop beh i m last = (.err e, k + 1) := by
  intro k
  induction k with
  | zero =>
      intro i m last hm h hcl hrv
      obtain ⟨m', rfl⟩ : ∃ m', m = m' + 1 := ⟨m - 1, by omega⟩
      rw [Nat.add_zero] at hcl hrv
      simp [transactLoop, hcl, hrv]
  | succ k ih =>
      intro i m last hm h hcl hrv
      obtain ⟨m', rfl⟩ : ∃ m', m = m' + 1 := ⟨m - 1, by omega⟩
      obtain ⟨⟨t, hcl0⟩, hcom0, hkind0⟩ := h 0 (Nat.succ_pos _)
      rw [Nat.add_zero] at hcl0 hcom0 hkind0
      have hrec := ih (i + 1) m' (some (errF i)) (by omega)
        (fun j hj => by
          have hs := h (j + 1) (by omega)
          rwa [show i + (j + 1) = i + 1 + j by omega] at hs)
        (by rwa [show i + 1 + k = i + (k + 1) by omega])
        (by rwa [show i + 1 + k = i + (k + 1) by omega])
      rcases hkind0 with hk | hk <;>
        simp [transactLoop, hcl0, hcom0, hk, hrec]

/-- C4: in the embedded-store retry loop, if the closure returns an
application error on attempt `i` (the first non-conflicting attempt), the
transaction is rolled back and that same error is returned immediately:
`i + 1` attempts total, with no retry of the application error. -/
theorem transact_app_error_not_retried {T : Type} (n i : Nat) (beh : Nat → Attempt T)
    (errF : Nat → RdbError) (e : TransactionError)
    (hi : i < n)
    (hpre : ∀ j, j < i → (∃ t, (beh j).closure = .ok t) ∧
        (beh j).commit = .error (errF j) ∧
        ((errF j).kind = .Busy ∨ (errF j).kind = .TryAgain))
    (hcl : (beh i).closure = .error e)
    (hrv : (beh i).revert = .ok ()) :
    transact n beh = (.err e, i + 1) :=
  transactLoop_app_error beh errF e i 0 n none hi
    (fun j hj => by simpa using hpre j hj)
    (by simpa using hcl) (by simpa using hrv)

/-- C4 witness: attempt 0 conflicts with `TryAgain`, attempt 1 returns a
serialization error from the closure; `transact 3` stops after 2 attempts
with that very error although a third attempt would have been allowed. -/
theorem transact_app_error_not_retried_witness :
    transact 3 (fun j =>
        if j = 0 then Attempt.mk (T := Nat) (.ok 0) (.ok ()) (.error ⟨.TryAgain, 0⟩)
        else Attempt.mk (.error (.SerializationError "bad")) (.ok ()) (.ok ())) =
      (.err (.SerializationError "bad"), 2) :=
  transact_app_error_not_retried 3 1
    (fun j =>
        if j = 0 then Attempt.mk (T := Nat) (.ok 0) (.ok ()) (.error ⟨.TryAgain, 0⟩)
        else Attempt.mk (.error (.SerializationError "bad")) (.ok ()) (.ok ()))
    (fun j => ⟨.TryAgain, j⟩) (.SerializationError "bad")
    (by omega)
    (fun j hj => by
      interval_cases j
      exact ⟨⟨0, rfl⟩, rfl, Or.inr rfl⟩)
    rfl rfl

/-- Once `last_error` holds some conflict, the loop can no longer reach the
`unwrap`-on-`None` panic. -/
theorem transactLoop_no_panic_of_some {T : Type} (beh : Nat → Attempt T) :
    ∀ (m i : Nat) (e : RdbError), (transactLoop beh i m (some e)).1 ≠ .panicked := by
  intro m
  induction m with
  | zero => intro i e; simp [transactLoop]
  | succ m ih =>
      intro i e
      simp only [transactLoop]
      split
      · split <;> simp
      · split
        · simp
        · split <;> simp <;> exact ih _ _

/-- C10: the `last_error.unwrap()` at loop exhaustion is reachable only with
an empty loop: for `retry_attempts ≥ 1` the embedded-store `transact` never
hits the unwrap-on-`None` panic (whenever all attempts are exhausted,
`last_error` is `Some`), while with `retry_attempts = 0` the loop body never
executes and `transact` reaches the unwrap on `None` (modelled as
`panicked`) after zero attempts, instead of returning a value or an error. -/
theorem transact_unwrap_reachability {T : Type} (n : Nat) (beh : Nat → Attempt T) :
    (1 ≤ n → (transact n beh).1 ≠ .panicked) ∧ transact 0 beh = (.panicked, 0) := by
  refine ⟨?_, rfl⟩
  intro hn
  obtain ⟨m, rfl⟩ : ∃ m, n = m + 1 := ⟨n - 1, by omega⟩
  show (transactLoop beh 0 (m + 1) none).1 ≠ .panicked
  simp only [transactLoop]
  split
  · split <;> simp
  · split
    · simp
    · split <;> simp <;> exact transactLoop_no_panic_of_some beh _ _ _

/-- C10 witness: at `retry_attempts = 2` with an always-`Busy` body the
result is not a panic, and at `retry_attempts = 0` it is exactly the panic. -/
theorem transact_unwrap_reachability_witness :
    (transact 2 (fun i => Attempt.mk (T := Nat) (.ok 0) (.ok ()) (.error ⟨.Busy, i⟩))).1 ≠
        .panicked ∧
    transact 0 (fun i => Attempt.mk (T := Nat) (.ok 0) (.ok ()) (.error ⟨.Busy, i⟩)) =
        (.panicked, 0) :=
  ⟨(transact_unwrap_reachability 2
      (fun i => Attempt.mk (T := Nat) (.ok 0) (.ok ()) (.error ⟨.Busy, i⟩))).1 (by omega),
   (transact_unwrap_reachability 0
      (fun i => Attempt.mk (T := Nat) (.ok 0) (.ok ()) (.error ⟨.Busy, i⟩))).2⟩

/-- Starting-with is invariant under a common leading chunk. -/
theorem bstarts_append_cancel (a x y : Bytes) : bstarts (a ++ x) (a ++ y) = bstarts x y := by
  induction a with
  | nil => rfl
  | cons b t ih => simp [bstarts, ih]

/-- A separator-terminated child chunk can never start a different
separator-terminated child chunk (plus anything after it), as long as
neither child contains the separator byte. -/
theorem sep_blocks (u v payload : Bytes) (hne : u ≠ v) (hu : (31 : Nat) ∉ u)
    (hv : (31 : Nat) ∉ v) : bstarts (v ++ [31]) (u ++ 31 :: payload) = false := by
  induction v generalizing u with
  | nil =>
      cases u with
      | nil => exact absurd rfl hne
      | cons a t =>
          have ha : a ≠ 31 := by
            intro h
            subst h
            exact hu (List.mem_cons_self _ _)
          simp [bstarts, beq_eq_false_iff_ne]
          omega
  | cons b t ih =>
      cases u with
      | nil =>
          have hb : b ≠ 31 := by
            intro h
            subst h
            exact hv (List.mem_cons_self _ _)
          simp [bstarts, beq_eq_false_iff_ne, hb]
      | cons a t1 =>
          by_cases hab : b = a
          · subst hab
            have hne' : t1 ≠ t := by
              intro h
              exact hne (by rw [h])
            have hu' : (31 : Nat) ∉ t1 := fun h => hu (List.mem_cons_of_mem _ h)
            have hv' : (31 : Nat) ∉ t := fun h => hv (List.mem_cons_of_mem _ h)
            simpa [bstarts] using ih t1 hne' hu' hv'
          · simp [bstarts, beq_eq_false_iff_ne, hab]

/-- Any key lying between `b ++ 0x00` and `b ++ 0xFF` starts with `b`. -/
theorem bstarts_of_between (b : Bytes) : ∀ k, bytesLe (b ++ [0]) k = true →
    bytesLe k (b ++ [255]) = true → bstarts b k = true := by
  induction b with
  | nil => intro k _ _; rfl
  | cons x bs ih =>
      intro k hlo hhi
      cases k with
      | nil => simp [bytesLe] at hlo
      | cons y ks =>
          simp only [List.cons_append, bytesLe] at hlo hhi
          by_cases hxy : x < y
          · rw [if_neg (by omega), if_pos hxy] at hhi
            simp at hhi
          · by_cases hyx : y < x
            · rw [if_neg (by omega), if_pos hyx] at hlo
              simp at hlo
            · have hxy' : x = y := by omega
              subst hxy'
              rw [if_neg (by omega), if_neg (by omega)] at hlo hhi
              simp [bstarts, ih ks hlo hhi]

/-- Two byte strings both starting a common key are comparable: one starts
the other. -/
theorem bstarts_total_of_common (k : Bytes) : ∀ b1 b2, bstarts b1 k = true →
    bstarts b2 k = true → bstarts b1 b2 = true ∨ bstarts b2 b1 = true := by
  induction k with
  | nil =>
      intro b1 b2 h1 h2
      cases b1 with
      | nil => exact Or.inl rfl
      | cons a t => simp [bstarts] at h1
  | cons d kt ih =>
      intro b1 b2 h1 h2
      cases b1 with
      | nil => exact Or.inl rfl
      | cons a t1 =>
          cases b2 with
          | nil => exact Or.inr rfl
          | cons c t2 =>
              simp [bstarts] at h1 h2
              rcases ih t1 t2 h1.2 h2.2 with h | h
              · exact Or.inl (by simp [bstarts, h1.1, h2.1, h])
              · exact Or.inr (by simp [bstarts, h1.1, h2.1, h])

/-- C8 counterexample: two distinct child byte strings of the same parent
(`all()`), `[0x61]` and `[0x61, 0x1F, 0x62]` — the second contains the
separator byte — produce sibling `RdbKeyspace`s whose `range()` intervals
share the key `[0x61, 0x1F, 0x62, 0x1F, 0x00]`, and a key packed under the
second sibling unpacks successfully against the first. -/
theorem keyspace_sibling_isolation_counterexample :
    ([97] : Bytes) ≠ [97, 31, 98] ∧
    bytesLe ((RdbKeyspace.all.keyspace [97]).range.1) [97, 31, 98, 31, 0] = true ∧
    bytesLe [97, 31, 98, 31, 0] ((RdbKeyspace.all.keyspace [97]).range.2) = true ∧
    bytesLe ((RdbKeyspace.all.keyspace [97, 31, 98]).range.1) [97, 31, 98, 31, 0] = true ∧
    bytesLe [97, 31, 98, 31, 0] ((RdbKeyspace.all.keyspace [97, 31, 98]).range.2) = true ∧
    (RdbKeyspace.all.keyspace [97]).unpack ((RdbKeyspace.all.keyspace [97, 31, 98]).pack [100]) =
      some [98, 31, 100] := by
  decide

/-- C8 (amended): for every parent keyspace and every two distinct child byte
strings, neither of which contains the separator byte `0x1F`, the derived
sibling keyspaces are isolated: no key lies in both `range()` intervals, and
a key packed under one sibling never unpacks (returns `None`) against the
other. -/
theorem keyspace_sibling_isolation_amended (p : RdbKeyspace) (c1 c2 : Bytes)
    (hne : c1 ≠ c2) (h1 : (31 : Nat) ∉ c1) (h2 : (31 : Nat) ∉ c2) :
    (∀ k, ¬(bytesLe ((p.keyspace c1).range.1) k = true ∧
            bytesLe k ((p.keyspace c1).range.2) = true ∧
            bytesLe ((p.keyspace c2).range.1) k = true ∧
            bytesLe k ((p.keyspace c2).range.2) = true)) ∧
    (∀ payload, (p.keyspace c1).unpack ((p.keyspace c2).pack payload) = none ∧
        (p.keyspace c2).unpack ((p.keyspace c1).pack payload) = none) := by
  have key1 : (p.keyspace c1).bytes = p.bytes ++ (c1 ++ [31]) := by
    simp [RdbKeyspace.keyspace, RdbKeyspace.from_bytes, SEPARATOR]
  have key2 : (p.keyspace c2).bytes = p.bytes ++ (c2 ++ [31]) := by
    simp [RdbKeyspace.keyspace, RdbKeyspace.from_bytes, SEPARATOR]
  have hblock1 : ∀ payload,
      bstarts (p.keyspace c1).bytes ((p.keyspace c2).bytes ++ payload) = false := by
    intro payload
    rw [key1, key2]
    have hsh : (p.bytes ++ (c2 ++ [31])) ++ payload = p.bytes ++ (c2 ++ 31 :: payload) := by
      simp
    rw [hsh, bstarts_append_cancel]
    exact sep_blocks c2 c1 payload (Ne.symm hne) h2 h1
  have hblock2 : ∀ payload,
      bstarts (p.keyspace c2).bytes ((p.keyspace c1).bytes ++ payload) = false := by
    intro payload
    rw [key1, key2]
    have hsh : (p.bytes ++ (c1 ++ [31])) ++ payload = p.bytes ++ (c1 ++ 31 :: payload) := by
      simp
    rw [hsh, bstarts_append_cancel]
    exact sep_blocks c1 c2 payload hne h1 h2
  constructor
  · rintro k ⟨ha, hb, hc, hd⟩
    have s1 : bstarts (p.keyspace c1).bytes k = true :=
      bstarts_of_between _ k (by simpa [RdbKeyspace.range] using ha)
        (by simpa [RdbKeyspace.range] using hb)
    have s2 : bstarts (p.keyspace c2).bytes k = true :=
      bstarts_of_between _ k (by simpa [RdbKeyspace.range] using hc)
        (by simpa [RdbKeyspace.range] using hd)
    rcases bstarts_total_of_common k _ _ s1 s2 with h | h
    · have hf := hblock1 []
      rw [List.append_nil] at hf
      rw [hf] at h
      exact Bool.noConfusion h
    · have hf := hblock2 []
      rw [List.append_nil] at hf
      rw [hf] at h
      exact Bool.noConfusion h
  · intro payload
    constructor
    · simp [RdbKeyspace.unpack, RdbKeyspace.pack, hblock1 payload]
    · simp [RdbKeyspace.unpack, RdbKeyspace.pack, hblock2 payload]

/-- C8 witness: separator-free children `[0x61]` and `[0x62]` of the
universal keyspace — a sample key is excluded from the intersection of the
ranges, and cross-unpack fails. -/
theorem keyspace_sibling_isolation_amended_witness :
    ¬(bytesLe ((RdbKeyspace.all.keyspace [97]).range.1) [97, 31, 5] = true ∧
      bytesLe [97, 31, 5] ((RdbKeyspace.all.keyspace [97]).range.2) = true ∧
      bytesLe ((RdbKeyspace.all.keyspace [98]).range.1) [97, 31, 5] = true ∧
      bytesLe [97, 31, 5] ((RdbKeyspace.all.keyspace [98]).range.2) = true) ∧
    (RdbKeyspace.all.keyspace [97]).unpack ((RdbKeyspace.all.keyspace [98]).pack [7]) = none :=
  ⟨(keyspace_sibling_isolation_amended RdbKeyspace.all [97] [98] (by decide) (by decide)
      (by decide)).1 [97, 31, 5],
   ((keyspace_sibling_isolation_amended RdbKeyspace.all [97] [98] (by decide) (by decide)
      (by decide)).2 [7]).1⟩

/-- C9: `FdbConnection::establish` fails with `EstablishFail` precisely when
the configured cluster file EXISTS (`Path::is_file()` returns true): the
guard's polarity is inverted relative to its own error message "cluster file
not found or unreadable".  Evaluated at a reachable, readable cluster file
with an always-successful driver. -/
theorem establish_fails_on_existing_cluster_file :
    establish (fun _ => true) (fun _ => .ok ())
        ⟨"/etc/foundationdb/fdb.cluster", "vw", 5, 1000⟩ =
      .error (.EstablishFail
        "cluster file not found or unreadable: /etc/foundationdb/fdb.cluster") := by
  decide

end VwKv
